import Mathlib

/-!
Shallow embedding of the MealMatch repository (Express backend `src/backend/server.js`
and React frontend state helpers `src/frontend/src/context/MealMatchContext.jsx`,
`recipeUtils`, and the Home page helpers) together with proofs of the frozen claims.

JavaScript strings are modelled as Lean `String`; `undefined`/`null`-able values as
`Option`; JS truthiness on strings ("" is falsy, every other string truthy) is
modelled by explicit emptiness tests.  Upstream HTTP calls are modelled by an
environment that records, per request, either a parsed JSON payload or an HTTP
failure; `fetchJson` turns an HTTP failure into the thrown error message exactly as
the source does.
-/

/-- Whitespace test used by the JS `String.prototype.trim` / the regexes `\s` in the
source, restricted to the ASCII whitespace characters that actually occur in the data. -/
def isJsSpace (c : Char) : Bool :=
  c = ' ' || c = '\t' || c = '\n' || c = '\r'

/-- Embedding of JS `value.trim()`: drop leading and trailing whitespace. -/
def jsTrim (s : String) : String :=
  String.mk (((s.toList.dropWhile isJsSpace).reverse.dropWhile isJsSpace).reverse)

/-- Embedding of JS `value.split(sep)` for a one-character separator. -/
def jsSplitOnChar (sep : Char) (s : String) : List String :=
  (s.toList.splitOn sep).map String.mk

/-- Embedding of JS `value.toLowerCase()` (ASCII). -/
def jsToLower (s : String) : String :=
  String.mk (s.toList.map Char.toLower)

/-- Rendering of a possibly-`undefined` JS string into a template literal:
`undefined` prints as the text `undefined`. -/
def jsStr : Option String → String
  | none => "undefined"
  | some s => s

/-- Backend `sanitizeCsv` (server.js:81-86): split on commas, trim each piece, drop
empty pieces, rejoin with commas. -/
def sanitizeCsv (value : String) : String :=
  String.intercalate "," (((jsSplitOnChar ',' value).map jsTrim).filter (fun s => s ≠ ""))

/-- Frontend `sanitizeIngredients` (frontend utils): split on commas, trim each
piece, drop empty pieces, rejoin with commas. -/
def sanitizeIngredients (input : String) : String :=
  String.intercalate "," (((jsSplitOnChar ',' input).map jsTrim).filter (fun s => s ≠ ""))

/-- Backend `normalizeSource` (server.js:73-79).  The argument is `none` when the JS
caller omits it, in which case the JS default parameter (the string both) applies. -/
def normalizeSource (source : Option String) : String :=
  let value := jsToLower (source.getD "both")
  if value ∈ (["mealdb", "spoonacular", "both"] : List String) then value else "both"

example : sanitizeCsv "chicken, , rice," = "chicken,rice" := by decide
example : normalizeSource (some "MealDB") = "mealdb" := by decide
example : normalizeSource none = "both" := by decide
example : normalizeSource (some "weird") = "both" := by decide

/-- Outcome of one upstream HTTP request: either parsed JSON of type `α`, or a
non-`ok` response with its status and body text. -/
inductive Http (α : Type) : Type
  | ok (a : α)
  | fail (status : Nat) (body : String)

/-- Backend `fetchJson` (server.js:22-29): a non-`ok` response becomes a thrown
`Error` whose message is `Request failed (status): body`. -/
def fetchJson {α : Type} : Http α → Except String α
  | .ok a => .ok a
  | .fail status body =>
      .error ("Request failed (" ++ toString status ++ "): " ++ body)

/-- A TheMealDB meal object as consumed by the backend.  The dynamically named
fields `strIngredient1..20` / `strMeasure1..20` are modelled as functions of the
index; an absent field is `none`. -/
structure MealDbMeal : Type where
  strMeal : Option String
  strInstructions : Option String
  strIngredientN : Nat → Option String
  strMeasureN : Nat → Option String

/-- One entry of a Spoonacular `extendedIngredients` array, with `amount`
pre-rendered to its decimal text (`none` for an absent field). -/
structure SpoonExtIngredient : Type where
  original : Option String
  amount : Option String
  unit : Option String
  name : Option String

/-- One step object inside a Spoonacular `analyzedInstructions` block. -/
structure SpoonStep : Type where
  step : Option String

/-- One `analyzedInstructions` block; `steps` is `none` when the field is absent
(the source reads it as `block.steps ?? []`). -/
structure SpoonInstructionBlock : Type where
  steps : Option (List SpoonStep)

/-- A Spoonacular recipe-information payload as consumed by the backend. -/
structure SpoonMeal : Type where
  title : Option String
  extendedIngredients : List SpoonExtIngredient
  analyzedInstructions : List SpoonInstructionBlock
  instructions : Option String

/-- The `meal` object carried in a detail response, tagged by the provider that
produced it (the JS value is untyped; routes pair it with a `source` string). -/
inductive ProviderMeal : Type
  | mealdb (m : MealDbMeal)
  | spoon (m : SpoonMeal)

/-- Environment for the detail and video routes: per-id upstream responses and the
configured credentials.  `mealdbLookup` yields the parsed `/lookup.php` payload
whose `meals` field is `none` when JSON `null`; `spoonacularInfo` yields the
`/recipes/id/information` payload.  `soraCreate` is the OpenAI video call, already
run through `withSafeFetch` semantics (error message on failure). -/
structure Env : Type where
  mealdbLookup : String → Http (Option (List MealDbMeal))
  spoonacularKey : Bool
  spoonacularInfo : String → Http SpoonMeal
  openaiConfigured : Bool
  soraCreate : String → Except String Unit

/-- Backend `getMealDetail` (server.js:100-112).  A thrown error is an `Except.error`
carrying the message; the missing-key throw inside buildSpoonacularUrl (server.js:34-36)
surfaces here because the fetch happens inside this function. -/
def getMealDetail (env : Env) (id : String) (sourcePreference : String) :
    Except String (String × ProviderMeal) :=
  let selectedSource :=
    normalizeSource (some (if sourcePreference = "both" then "mealdb" else sourcePreference))
  if selectedSource = "spoonacular" then
    if env.spoonacularKey then
      match fetchJson (env.spoonacularInfo id) with
      | .ok meal => .ok ("spoonacular", ProviderMeal.spoon meal)
      | .error e => .error e
    else .error "Spoonacular API key is not configured"
  else
    match fetchJson (env.mealdbLookup id) with
    | .error e => .error e
    | .ok data =>
        match (data.getD []).head? with
        | none => .error "Recipe not found"
        | some meal => .ok ("mealdb", ProviderMeal.mealdb meal)

/-- Backend `normalizeMealIngredients` (server.js:114-133).  When the tag of the
meal object does not match `source`, the JS code reads absent fields and produces
`[]`; the mismatching match arms reflect that. -/
def normalizeMealIngredients (meal : ProviderMeal) (source : String) : List String :=
  if source = "spoonacular" then
    match meal with
    | .spoon m =>
        ((m.extendedIngredients).map (fun ing =>
          if (ing.original.getD "") ≠ "" then ing.original.getD ""
          else
            jsTrim (String.intercalate " "
              (([ing.amount, ing.unit, ing.name].filterMap id).filter (fun s => s ≠ ""))))).filter
          (fun s => s ≠ "")
    | .mealdb _ => []
  else
    match meal with
    | .mealdb m =>
        (((List.range 20).map (fun index =>
          match m.strIngredientN (index + 1) with
          | none => none
          | some name =>
              if jsTrim name = "" then none
              else
                let trimmedName := jsTrim name
                match m.strMeasureN (index + 1) with
                | none => some trimmedName
                | some quantity =>
                    let trimmedQuantity := jsTrim quantity
                    some (if trimmedQuantity = "" then trimmedName
                          else trimmedQuantity ++ " " ++ trimmedName))).filterMap id).filter
          (fun s => s ≠ "")
    | .spoon _ => []

/-- Embedding of the JS newline-regex split used on instruction text.  Splitting on
the newline character leaves any carriage return attached to the preceding piece; every consumer trims each
piece immediately afterwards, which removes it, so the composition agrees with the
source regex. -/
def splitLines (s : String) : List String :=
  (s.toList.splitOn '\n').map String.mk

/-- Embedding of the JS replace of the step-number regex by the empty string: strip one-or-more leading
digits followed by a literal dot and any whitespace; leave the line unchanged when
the pattern does not match at the start. -/
def stripLeadingNumber (s : String) : String :=
  let cs := s.toList
  let ds := cs.takeWhile Char.isDigit
  if ds = [] then s
  else
    match cs.drop ds.length with
    | '.' :: rest => String.mk (rest.dropWhile isJsSpace)
    | _ => s

/-- Backend `normalizeMealSteps` (server.js:135-154). -/
def normalizeMealSteps (meal : ProviderMeal) (source : String) : List String :=
  if source = "spoonacular" then
    match meal with
    | .spoon m =>
        let steps :=
          (((m.analyzedInstructions.map (fun block => block.steps.getD [])).flatten.map
            (fun st => st.step)).filterMap id).filter (fun s => s ≠ "")
        if steps ≠ [] then steps
        else
          match m.instructions with
          | some instr =>
              if instr ≠ "" then ((splitLines instr).map jsTrim).filter (fun s => s ≠ "")
              else []
          | none => []
    | .mealdb _ => []
  else
    match meal with
    | .mealdb m =>
        match m.strInstructions with
        | none => []
        | some instr =>
            if instr = "" then []
            else
              ((splitLines instr).map (fun line => jsTrim (stripLeadingNumber line))).filter
                (fun s => s ≠ "")
    | .spoon _ => []

/-- Backend `buildSoraPrompt` (server.js:156-185): the fixed template literal,
interpolated with the recipe name, the `- `-bulleted ingredient list and the
numbered step list (used twice), then `.trim()`ed. -/
def buildSoraPrompt (recipeName : String) (ingredients : List String) (steps : List String) :
    String :=
  let ingredientsList := String.intercalate "\n" (ingredients.map (fun item => "- " ++ item))
  let stepsList :=
    String.intercalate "\n" (steps.enum.map (fun p => toString (p.1 + 1) ++ ". " ++ p.2))
  jsTrim
    ("\nCreate a top-down cooking instruction video showing how to make the recipe: \"" ++
      recipeName ++ "\".\n\nIngredients visible in the scenes:\n" ++ ingredientsList ++
      "\n\nThe video should follow these steps in order:\n" ++ stepsList ++
      "\n\nFor each step, show only hands and utensils in a modern, well-lit kitchen. \n" ++
      "No faces, no identifiable humans.\n\nVideo style:\n- Bright natural lighting\n" ++
      "- Wooden cutting board\n- Stainless steel pots, pans, and tools\n" ++
      "- Smooth camera movement\n- Clear close-ups for chopping, mixing, and cooking\n" ++
      "- Audible light kitchen ambience (no copyrighted music)\n\n" ++
      "Focus on visually demonstrating the actions exactly as described in the steps:\n" ++
      stepsList ++ "\n\nEnd the video by showing the completed dish nicely plated.\n")

/-- Response of `GET /api/recipes/:id`: the success JSON `{source, meal}` or an
error JSON `{error}` with its HTTP status. -/
inductive DetailResp : Type
  | ok (source : String) (meal : ProviderMeal)
  | err (status : Nat) (error : String)

/-- Route handler for GET /api/recipes/:id (server.js:263-272).  `source` is
`none` when the query parameter is absent, making the JS default (the string mealdb) apply;
`withSafeFetch` catching a throw corresponds to the `Except.error` branch. -/
def detailRoute (env : Env) (id : String) (source : Option String) : DetailResp :=
  match getMealDetail env id (source.getD "mealdb") with
  | .ok (src, meal) => .ok src meal
  | .error e => .err (if e = "Recipe not found" then 404 else 502) e

/-- Body of a `POST /api/video` request; `recipeId` is `none` when absent and
`preview` defaults to `false` in the source destructuring. -/
structure VideoBody : Type where
  recipeId : Option String
  source : Option String
  preview : Bool

/-- Response of `POST /api/video`: plain error JSON, the 502 video-failure JSON
(which still carries the prompt), the preview JSON `{prompt, video: null,
preview: true, missingApiKey}`, or the created-video JSON `{prompt, video}`. -/
inductive VideoResp : Type
  | err (status : Nat) (error : String)
  | errVideo (error : String) (details : String) (prompt : String)
  | preview (prompt : String) (missingApiKey : Bool)
  | created (prompt : String) (video : Unit)

/-- The recipe-name selection in the video route (server.js:414-415): the ternary
on the source tag, with the strMeal-or-fallback disjunction on the TheMealDB side. -/
def videoRecipeName (src : String) (meal : ProviderMeal) : String :=
  if src = "spoonacular" then
    match meal with
    | .spoon m => jsStr m.title
    | .mealdb _ => "undefined"
  else
    match meal with
    | .mealdb m => if m.strMeal.getD "" = "" then "MealMatch Recipe" else m.strMeal.getD ""
    | .spoon _ => "MealMatch Recipe"

/-- Route handler for POST /api/video (server.js:402-446). -/
def videoRoute (env : Env) (body : VideoBody) : VideoResp :=
  if (body.recipeId.getD "") = "" then .err 400 "recipeId is required"
  else
    match getMealDetail env (body.recipeId.getD "") (body.source.getD "mealdb") with
    | .error e => .err (if e = "Recipe not found" then 404 else 502) e
    | .ok (src, meal) =>
        let ingredients := normalizeMealIngredients meal src
        let steps := normalizeMealSteps meal src
        if ingredients = [] ∨ steps = [] then
          .err 400 "Recipe is missing ingredients or steps for video generation"
        else
          let soraPrompt := buildSoraPrompt (videoRecipeName src meal) ingredients steps
          if body.preview ∨ env.openaiConfigured = false then
            .preview soraPrompt (!env.openaiConfigured)
          else
            match env.soraCreate soraPrompt with
            | .error e => .errVideo "Failed to generate video" e soraPrompt
            | .ok v => .created soraPrompt v

/-- A TheMealDB `filter.php` result item (only identity fields are returned by that
endpoint). -/
structure MdbItem : Type where
  idMeal : String
  strMeal : String
  strMealThumb : String
deriving DecidableEq

/-- An ingredient object inside a Spoonacular search entry (`usedIngredients` and
friends); only the fields the frontend match scorer reads are modelled. -/
structure MatchIngredient : Type where
  name : Option String
  original : Option String
deriving DecidableEq

/-- A raw entry of a Spoonacular search response (`complexSearch` result or
`findByIngredients` element), with `readyInMinutes`/`servings` numbers as `Nat`. -/
structure SpoonEntry : Type where
  id : Option Nat
  title : Option String
  image : Option String
  sourceUrl : Option String
  readyInMinutes : Option Nat
  servings : Option Nat
  usedIngredients : Option (List MatchIngredient)
  missedIngredients : Option (List MatchIngredient)
  unusedIngredients : Option (List MatchIngredient)
  extendedIngredientsList : Option (List MatchIngredient)
deriving DecidableEq

/-- The shape produced by backend `mapComplexSearchResult` (server.js:88-98). -/
structure MappedCard : Type where
  id : Option Nat
  title : Option String
  image : Option String
  sourceUrl : Option String
  readyInMinutes : Option Nat
  servings : Option Nat
  usedIngredients : List MatchIngredient
  missedIngredients : List MatchIngredient
  unusedIngredients : List MatchIngredient
deriving DecidableEq

/-- Backend `mapComplexSearchResult` (server.js:88-98): project an entry onto the
card shape, with `entry.usedIngredients ?? entry.extendedIngredients ?? []` for the
used list and `?? []` for the other two. -/
def mapComplexSearchResult (entry : SpoonEntry) : MappedCard where
  id := entry.id
  title := entry.title
  image := entry.image
  sourceUrl := entry.sourceUrl
  readyInMinutes := entry.readyInMinutes
  servings := entry.servings
  usedIngredients := (entry.usedIngredients.orElse (fun _ => entry.extendedIngredientsList)).getD []
  missedIngredients := entry.missedIngredients.getD []
  unusedIngredients := entry.unusedIngredients.getD []

/-- Value stored in `payload.spoonacular` by the search route: the
`findByIngredients` branch stores raw entries, the `complexSearch` branch stores
mapped cards (the JS array is heterogeneous across the two paths). -/
inductive SpoonVal : Type
  | raw (e : SpoonEntry)
  | card (c : MappedCard)
deriving DecidableEq

/-- Environment for `GET /api/recipes`: the upstream responses as functions of the
request-derived query values (the fixed `number`/`ranking`/flag parameters of the
source URLs are folded into these functions). -/
structure SearchEnv : Type where
  mealdbFilter : String → Http (Option (List MdbItem))
  spoonacularKey : Bool
  spoonComplex : String → String → String → Http (Option (List SpoonEntry))
  spoonFind : String → Http (Option (List SpoonEntry))

/-- The `payload` object assembled by the search route (server.js:198-203):
per-provider result arrays (initially `[]`) and the per-provider `errors` map
entries (`none` when the key is absent). -/
structure SearchPayload : Type where
  source : String
  mealdb : List MdbItem
  spoonacular : List SpoonVal
  errMealdb : Option String
  errSpoon : Option String
deriving DecidableEq

/-- The MealDB task of the search fan-out (server.js:207-218): on success store
`data?.meals ?? []`, on a caught error leave the array `[]` and record the message
under `errors.mealdb`; when the source excludes MealDB the task is never pushed. -/
def runMealDbTask (fetched : Http (Option (List MdbItem))) (included : Bool) :
    List MdbItem × Option String :=
  if included then
    match fetchJson fetched with
    | .ok data => (data.getD [], none)
    | .error e => ([], some e)
  else ([], none)

/-- The Spoonacular task of the search fan-out (server.js:220-251): with a diet or
intolerances filter use `complexSearch` and map the results, otherwise use
`findByIngredients` raw; a missing API key throws inside the task
(server.js:34-36) and is recorded under `errors.spoonacular`. -/
def runSpoonTask (key : Bool) (complexFetched : Http (Option (List SpoonEntry)))
    (findFetched : Http (Option (List SpoonEntry))) (hasDietFilter : Bool)
    (included : Bool) : List SpoonVal × Option String :=
  if included then
    if key then
      if hasDietFilter then
        match fetchJson complexFetched with
        | .ok payload =>
            (((payload.getD []).map mapComplexSearchResult).map SpoonVal.card, none)
        | .error e => ([], some e)
      else
        match fetchJson findFetched with
        | .ok data => ((data.getD []).map SpoonVal.raw, none)
        | .error e => ([], some e)
    else ([], some "Spoonacular API key is not configured")
  else ([], none)

/-- The payload the search route holds after `Promise.all` completes, as a function
of the environment and the request values. -/
def searchPayload (env : SearchEnv) (sanitized : String) (source : Option String)
    (diet intolerances : String) : SearchPayload :=
  let selectedSource := normalizeSource source
  let includeMealDb := selectedSource = "mealdb" || selectedSource = "both"
  let includeSpoonacular := selectedSource = "spoonacular" || selectedSource = "both"
  let mdb := runMealDbTask (env.mealdbFilter sanitized) includeMealDb
  let sp :=
    runSpoonTask env.spoonacularKey (env.spoonComplex sanitized diet intolerances)
      (env.spoonFind sanitized) (diet ≠ "" || intolerances ≠ "") includeSpoonacular
  { source := selectedSource
    mealdb := mdb.1
    spoonacular := sp.1
    errMealdb := mdb.2
    errSpoon := sp.2 }

/-- Response of `GET /api/recipes`: an error JSON (the both-empty outcome carries
the payload under `details`) or the success payload. -/
inductive SearchResp : Type
  | err (status : Nat) (error : String) (details : Option SearchPayload)
  | ok (payload : SearchPayload)
deriving DecidableEq

/-- True when at least one key is present in the `errors` map
(`Object.keys(payload.errors).length`, server.js:256). -/
def hasErrors (p : SearchPayload) : Bool :=
  p.errMealdb.isSome || p.errSpoon.isSome

/-- Route handler for GET /api/recipes (server.js:187-261).  Query parameters
are `none` when absent; `diet` and `intolerances` default to the empty string in
the source destructuring. -/
def searchRoute (env : SearchEnv) (ingredients source diet intolerances : Option String) :
    SearchResp :=
  let sanitizedIngredients := sanitizeCsv (ingredients.getD "")
  if sanitizedIngredients = "" then
    .err 400 "Ingredients query parameter is required" none
  else
    let payload :=
      searchPayload env sanitizedIngredients source (diet.getD "") (intolerances.getD "")
    if payload.mealdb = [] ∧ payload.spoonacular = [] then
      .err (if hasErrors payload then 502 else 404) "No recipes found" (some payload)
    else .ok payload

/-- A stored favorite as produced by `normalizeFavorite` (recipeUtils): `source` is
always a string there, the other fields can be JS `undefined` (modelled `none`);
`sourceUrl` is forced to a string by the empty-string fallbacks. -/
structure Favorite : Type where
  id : Option String
  title : Option String
  image : Option String
  source : String
  sourceUrl : String
deriving DecidableEq

/-- A raw recipe summary handed to `normalizeFavorite`: any of the recognized
fields may be absent. -/
structure RawItem : Type where
  id : Option String
  title : Option String
  image : Option String
  source : Option String
  sourceUrl : Option String
  idMeal : Option String
  strMeal : Option String
  strMealThumb : Option String
  strSource : Option String
  strYoutube : Option String
deriving DecidableEq

/-- JS truthiness of a possibly-absent string: `undefined` and the empty string are falsy. -/
def optTruthy (o : Option String) : Bool :=
  o.getD "" ≠ ""

/-- JS `a || b` on possibly-absent strings: keep `a` when truthy, else `b`. -/
def jsOr (a b : Option String) : Option String :=
  if optTruthy a then a else b

/-- Frontend `normalizeFavorite` (recipeUtils): accept an item carrying
`source`+`id`, else interpret a raw TheMealDB meal (`idMeal`/`strMeal`), else
reject. -/
def normalizeFavorite (item : RawItem) : Option Favorite :=
  if optTruthy item.source ∧ optTruthy item.id then
    some
      { id := item.id
        title := item.title
        image := item.image
        source := item.source.getD ""
        sourceUrl := (jsOr item.sourceUrl none).getD "" }
  else if optTruthy item.idMeal ∨ optTruthy item.strMeal then
    some
      { id := item.idMeal
        title := item.strMeal
        image := item.strMealThumb
        source := "mealdb"
        sourceUrl := (jsOr item.strSource item.strYoutube).getD "" }
  else none

/-- Frontend `buildFavoriteKey` (recipeUtils): the template literal
`source-id`; an `undefined` id renders as the text `undefined`. -/
def buildFavoriteKey (favorite : Favorite) : String :=
  favorite.source ++ "-" ++ jsStr favorite.id

/-- Frontend `toggleFavorite` in local-storage mode (MealMatchContext.jsx:87-98):
presence check on the composite key, then filter-out or append. -/
def toggleFavorite (summary : RawItem) (prev : List Favorite) : List Favorite :=
  match normalizeFavorite summary with
  | none => prev
  | some normalized =>
      let key := buildFavoriteKey normalized
      if prev.any (fun favorite => buildFavoriteKey favorite == key) then
        prev.filter (fun favorite => !(buildFavoriteKey favorite == key))
      else prev ++ [normalized]

/-- Per-key uniqueness of a favorites collection: no two entries share the
composite `source-id` key. -/
def keyUnique (l : List Favorite) : Prop :=
  l.Pairwise (fun a b => buildFavoriteKey a ≠ buildFavoriteKey b)

/-- One `Set.prototype.add` step on an insertion-ordered set modelled as a list:
adding a present element keeps the list unchanged, a new element is appended. -/
def setAdd (acc : List String) (x : String) : List String :=
  if x ∈ acc then acc else acc ++ [x]

/-- Frontend `addShoppingItems` (MealMatchContext.jsx:136-142):
`new Set(prev)` (insertion-ordered, deduplicating) then `forEach` adding each
truthy item, then `Array.from`. -/
def addShoppingItems (items : List String) (prev : List String) : List String :=
  let uniqueItems := prev.foldl setAdd []
  items.foldl (fun acc item => if item = "" then acc else setAdd acc item) uniqueItems

/-- Frontend `removeShoppingItem` (MealMatchContext.jsx:144-146): strict-inequality
filter. -/
def removeShoppingItem (item : String) (prev : List String) : List String :=
  prev.filter (fun entry => entry ≠ item)

/-- Frontend `clearShoppingList` (MealMatchContext.jsx:148). -/
def clearShoppingList : List String := []

/-- Collapse every maximal run of whitespace to one space
(the JS replace of every whitespace run by one space), character-list worker. -/
def collapseWsAux : List Char → List Char
  | [] => []
  | [c] => if isJsSpace c then [' '] else [c]
  | c :: d :: rest =>
      if isJsSpace c then
        if isJsSpace d then collapseWsAux (d :: rest)
        else ' ' :: collapseWsAux (d :: rest)
      else c :: collapseWsAux (d :: rest)

/-- JS global replace of every whitespace run in s by a single space. -/
def collapseWs (s : String) : String :=
  String.mk (collapseWsAux s.toList)

/-- Frontend `normalizeIngredientName` (Home page helpers):
lowercase the name, collapse whitespace runs to single spaces, then trim. -/
def normalizeIngredientName (name : String) : String :=
  jsTrim (collapseWs (jsToLower name))

/-- The card fields read by the match scorer. -/
structure RecipeCard : Type where
  usedIngredients : List MatchIngredient
  missedIngredients : List MatchIngredient
deriving DecidableEq

/-- The JS fallback chain over name, original and the empty string. -/
def ingredientLabel (ing : MatchIngredient) : String :=
  (jsOr ing.name (jsOr ing.original (some ""))).getD ""

/-- Frontend `getMatchScore` (Home page helpers, part_001:1328-1338).  The
`ignored` set is a list with membership lookup; `Math.round((used / total) * 100)`
on the nonnegative rational `used/total` equals `(200 * used + total) / (2 * total)`
in integer division, which is how the rounding is embedded. -/
def getMatchScore (card : RecipeCard) (ignored : List String) : Nat :=
  let used :=
    (card.usedIngredients.filter
      (fun ing => !(ignored.contains (normalizeIngredientName (ingredientLabel ing))))).length
  let missed :=
    (card.missedIngredients.filter
      (fun ing => !(ignored.contains (normalizeIngredientName (ingredientLabel ing))))).length
  let total := used + missed
  if total = 0 then 0 else (200 * used + total) / (2 * total)

/-- Whether a detail lookup preference resolves to the TheMealDB branch of
`getMealDetail` (everything except an explicit `spoonacular`). -/
def resolvesToMealdb (pref : String) : Prop :=
  normalizeSource (some (if pref = "both" then "mealdb" else pref)) ≠ "spoonacular"

/-- Concrete detail environment: TheMealDB knows no id (`meals: null`), Spoonacular
answers every information request with HTTP 404, no OpenAI credential. -/
def wDetailEnv : Env where
  mealdbLookup := fun _ => .ok none
  spoonacularKey := true
  spoonacularInfo := fun _ => .fail 404 "Not Found"
  openaiConfigured := false
  soraCreate := fun _ => .ok ()

/-- Concrete TheMealDB meal with one ingredient and a one-line instruction. -/
def wMeal : MealDbMeal where
  strMeal := some "Toast"
  strInstructions := some "Toast the bread."
  strIngredientN := fun n => if n = 1 then some "Bread" else none
  strMeasureN := fun _ => none

/-- Concrete environment for the video route: TheMealDB resolves id to `wMeal`,
no OpenAI credential configured. -/
def wVideoEnv : Env where
  mealdbLookup := fun _ => .ok (some [wMeal])
  spoonacularKey := true
  spoonacularInfo := fun _ => .fail 404 "Not Found"
  openaiConfigured := false
  soraCreate := fun _ => .ok ()

/-- Concrete Spoonacular search entry. -/
def cSpoonEntry : SpoonEntry where
  id := some 1
  title := some "Stir Fry"
  image := none
  sourceUrl := none
  readyInMinutes := none
  servings := none
  usedIngredients := none
  missedIngredients := none
  unusedIngredients := none
  extendedIngredientsList := none

/-- Concrete search environment where TheMealDB succeeds with `meals: null`
(no matches, no error) and Spoonacular returns one recipe. -/
def cSearchEnv : SearchEnv where
  mealdbFilter := fun _ => .ok none
  spoonacularKey := true
  spoonComplex := fun _ _ _ => .ok none
  spoonFind := fun _ => .ok (some [cSpoonEntry])

/-- Concrete search environment where both providers fail: TheMealDB with an HTTP
500 and Spoonacular because no API key is configured. -/
def wFailEnv : SearchEnv where
  mealdbFilter := fun _ => .fail 500 "boom"
  spoonacularKey := false
  spoonComplex := fun _ _ _ => .ok none
  spoonFind := fun _ => .ok none

/-- Concrete TheMealDB filter item. -/
def wMdbItem : MdbItem where
  idMeal := "52940"
  strMeal := "Brown Stew Chicken"
  strMealThumb := "thumb.jpg"

/-- Search environment whose TheMealDB call fails while Spoonacular returns one
recipe. -/
def wIso1 : SearchEnv where
  mealdbFilter := fun _ => .fail 500 "boom"
  spoonacularKey := true
  spoonComplex := fun _ _ _ => .ok none
  spoonFind := fun _ => .ok (some [cSpoonEntry])

/-- Same Spoonacular behaviour as `wIso1` but a healthy TheMealDB call — only the
MealDB side of the environment differs. -/
def wIso2 : SearchEnv where
  mealdbFilter := fun _ => .ok (some [wMdbItem])
  spoonacularKey := true
  spoonComplex := fun _ _ _ => .ok none
  spoonFind := fun _ => .ok (some [cSpoonEntry])

/-- Stored favorite whose title differs from the one the summary below
normalizes to, under the same composite key `mealdb-1`. -/
def cexStored : Favorite where
  id := some "1"
  title := some "B"
  image := none
  source := "mealdb"
  sourceUrl := ""

/-- Summary that normalizes to a favorite with key `mealdb-1` and title `A`. -/
def cexSummary : RawItem where
  id := some "1"
  title := some "A"
  image := none
  source := some "mealdb"
  sourceUrl := none
  idMeal := none
  strMeal := none
  strMealThumb := none
  strSource := none
  strYoutube := none

/-- The normalization of `cexSummary`. -/
def cexNorm : Favorite where
  id := some "1"
  title := some "A"
  image := none
  source := "mealdb"
  sourceUrl := ""

theorem jsRound100_le (u m : Nat) :
    (if u + m = 0 then 0 else (200 * u + (u + m)) / (2 * (u + m))) ≤ 100 := by
  by_cases h : u + m = 0
  · simp [h]
  · rw [if_neg h]
    have ht : 0 < u + m := Nat.pos_of_ne_zero h
    have hlt : 200 * u + (u + m) < 101 * (2 * (u + m)) := by omega
    have hdiv : (200 * u + (u + m)) / (2 * (u + m)) < 101 :=
      (Nat.div_lt_iff_lt_mul (by omega : 0 < 2 * (u + m))).mpr hlt
    omega

/-- C5: the generated video prompt is a deterministic function of the triple
(recipe name, ingredients, steps) — equal inputs to `buildSoraPrompt` yield an
identical prompt text. -/
theorem buildSoraPrompt_deterministic (n1 n2 : String) (i1 i2 s1 s2 : List String)
    (hn : n1 = n2) (hi : i1 = i2) (hs : s1 = s2) :
    buildSoraPrompt n1 i1 s1 = buildSoraPrompt n2 i2 s2 := by
  rw [hn, hi, hs]

theorem buildSoraPrompt_deterministic_witness :
    buildSoraPrompt "Toast" ["Bread"] ["Toast the bread."] =
      buildSoraPrompt "Toast" ["Bread"] ["Toast the bread."] :=
  buildSoraPrompt_deterministic "Toast" "Toast" ["Bread"] ["Bread"] ["Toast the bread."]
    ["Toast the bread."] rfl rfl rfl

/-- C6: sanitizing `"chicken, , rice,"` yields `"chicken,rice"`, and the backend
`sanitizeCsv` and the frontend `sanitizeIngredients` compute the same function
(split on commas, trim each piece, drop empties, rejoin with single commas). -/
theorem sanitizeCsv_spec :
    sanitizeCsv "chicken, , rice," = "chicken,rice" ∧
      ∀ s : String, sanitizeCsv s = sanitizeIngredients s :=
  ⟨by decide, fun _ => rfl⟩

/-- C9: `normalizeSource` always returns one of `mealdb`, `spoonacular`, `both`:
the lowercased input when that is one of the three, and `both` for every other
value, including an omitted argument. -/
theorem normalizeSource_recognized (o : Option String) :
    (normalizeSource o = "mealdb" ∨ normalizeSource o = "spoonacular" ∨
        normalizeSource o = "both") ∧
      (∀ s, o = some s → jsToLower s ∈ (["mealdb", "spoonacular", "both"] : List String) →
        normalizeSource o = jsToLower s) ∧
      (∀ s, o = some s → jsToLower s ∉ (["mealdb", "spoonacular", "both"] : List String) →
        normalizeSource o = "both") ∧
      normalizeSource none = "both" := by
  refine ⟨?_, ?_, ?_, by decide⟩
  · by_cases h : jsToLower (o.getD "both") ∈ (["mealdb", "spoonacular", "both"] : List String)
    · have he : normalizeSource o = jsToLower (o.getD "both") := by
        unfold normalizeSource
        simp [h]
      rw [he]
      simpa using h
    · have he : normalizeSource o = "both" := by
        unfold normalizeSource
        simp [h]
      simp [he]
  · intro s hs hmem
    subst hs
    unfold normalizeSource
    simp [hmem]
  · intro s hs hmem
    subst hs
    unfold normalizeSource
    simp [hmem]

theorem normalizeSource_recognized_witness :
    normalizeSource (some "MealDB") = jsToLower "MealDB" ∧
      normalizeSource (some "weird") = "both" :=
  ⟨(normalizeSource_recognized (some "MealDB")).2.1 "MealDB" rfl (by decide),
    (normalizeSource_recognized (some "weird")).2.2.1 "weird" rfl (by decide)⟩

/-- C10: `getMatchScore` always returns an integer between 0 and 100, and when the
total of used plus missed ingredients is zero the guard returns 0, so no division
by zero can occur. -/
theorem getMatchScore_bounds (card : RecipeCard) (ignored : List String) :
    getMatchScore card ignored ≤ 100 ∧
      ((card.usedIngredients.filter
            (fun ing =>
              !(ignored.contains (normalizeIngredientName (ingredientLabel ing))))).length +
          (card.missedIngredients.filter
            (fun ing =>
              !(ignored.contains (normalizeIngredientName (ingredientLabel ing))))).length = 0 →
        getMatchScore card ignored = 0) := by
  constructor
  · exact jsRound100_le _ _
  · intro h
    unfold getMatchScore
    exact if_pos h

theorem getMatchScore_bounds_witness :
    getMatchScore ⟨[], []⟩ [] ≤ 100 ∧ getMatchScore ⟨[], []⟩ [] = 0 :=
  ⟨(getMatchScore_bounds ⟨[], []⟩ []).1, (getMatchScore_bounds ⟨[], []⟩ []).2 (by decide)⟩

/-- C3: with a non-empty sanitized ingredient list, when both result arrays are
empty after the fan-out the search route answers `No recipes found` with status 502
when at least one provider error was recorded in the errors map and 404 when none
was. -/
theorem search_both_empty_status (env : SearchEnv)
    (ingredients source diet intolerances : Option String)
    (hsan : sanitizeCsv (ingredients.getD "") ≠ "")
    (hmdb : (searchPayload env (sanitizeCsv (ingredients.getD "")) source (diet.getD "")
        (intolerances.getD "")).mealdb = [])
    (hsp : (searchPayload env (sanitizeCsv (ingredients.getD "")) source (diet.getD "")
        (intolerances.getD "")).spoonacular = []) :
    searchRoute env ingredients source diet intolerances =
      SearchResp.err
        (if hasErrors (searchPayload env (sanitizeCsv (ingredients.getD "")) source
            (diet.getD "") (intolerances.getD "")) then 502 else 404)
        "No recipes found"
        (some (searchPayload env (sanitizeCsv (ingredients.getD "")) source (diet.getD "")
          (intolerances.getD ""))) := by
  simp only [searchRoute]
  rw [if_neg hsan, if_pos ⟨hmdb, hsp⟩]

theorem search_both_empty_status_witness :
    searchRoute wFailEnv (some "chicken") none none none =
      SearchResp.err 502 "No recipes found"
        (some (searchPayload wFailEnv "chicken" none "" "")) := by
  rw [search_both_empty_status wFailEnv (some "chicken") none none none (by decide) (by decide)
    (by decide)]
  decide

/-- C1 counterexample: asking the detail route for an id unknown to the specified
provider `spoonacular` (the upstream answers HTTP 404) yields status 502 with the
upstream error message, not the claimed 404 with `Recipe not found`. -/
theorem detail_spoon_unknown_cex :
    detailRoute wDetailEnv "42" (some "spoonacular") =
        DetailResp.err 502 "Request failed (404): Not Found" ∧
      (502 : Nat) ≠ 404 :=
  ⟨rfl, by decide⟩

/-- C1 (amended): a `Recipe not found` error from `getMealDetail` yields a 404 with
that exact body; any other thrown error yields 502 with the upstream message; and
for every lookup that resolves to the TheMealDB branch, an id unknown to TheMealDB
(`meals` null or empty) yields the 404 `Recipe not found` outcome. -/
theorem detail_notfound_distinct (env : Env) (id : String) (source : Option String) :
    (getMealDetail env id (source.getD "mealdb") = .error "Recipe not found" →
        detailRoute env id source = DetailResp.err 404 "Recipe not found") ∧
      (∀ e, getMealDetail env id (source.getD "mealdb") = .error e → e ≠ "Recipe not found" →
        detailRoute env id source = DetailResp.err 502 e) ∧
      (∀ data, resolvesToMealdb (source.getD "mealdb") →
        env.mealdbLookup id = Http.ok data → data.getD [] = [] →
        detailRoute env id source = DetailResp.err 404 "Recipe not found") := by
  have hroute : ∀ e, getMealDetail env id (source.getD "mealdb") = .error e →
      detailRoute env id source = DetailResp.err (if e = "Recipe not found" then 404 else 502) e := by
    intro e h
    unfold detailRoute
    rw [h]
  refine ⟨?_, ?_, ?_⟩
  · intro h
    have := hroute "Recipe not found" h
    rwa [if_pos rfl] at this
  · intro e h he
    have := hroute e h
    rwa [if_neg he] at this
  · intro data hres hdata hempty
    have hdet : getMealDetail env id (source.getD "mealdb") = .error "Recipe not found" := by
      unfold getMealDetail
      rw [if_neg hres, hdata]
      show (match (data.getD []).head? with
        | none => Except.error "Recipe not found"
        | some meal => Except.ok ("mealdb", ProviderMeal.mealdb meal)) =
          Except.error "Recipe not found"
      rw [hempty]
      rfl
    have := hroute "Recipe not found" hdet
    rwa [if_pos rfl] at this

theorem detail_notfound_distinct_witness :
    detailRoute wDetailEnv "42" none = DetailResp.err 404 "Recipe not found" :=
  (detail_notfound_distinct wDetailEnv "42" none).2.2 none
    (by unfold resolvesToMealdb; decide) rfl rfl

/-- C2: for a video request whose recipe resolves with at least one ingredient and
at least one step, when no OpenAI credential is configured the endpoint does not
fail: it answers with the preview response, carrying `preview: true`,
`missingApiKey: true` and the built (non-null) prompt string. -/
theorem video_preview_without_credential (env : Env) (body : VideoBody) (rid src : String)
    (meal : ProviderMeal)
    (hrid : body.recipeId = some rid) (hnz : rid ≠ "")
    (hdet : getMealDetail env rid (body.source.getD "mealdb") = .ok (src, meal))
    (hing : normalizeMealIngredients meal src ≠ [])
    (hstep : normalizeMealSteps meal src ≠ [])
    (hcred : env.openaiConfigured = false) :
    videoRoute env body =
      VideoResp.preview
        (buildSoraPrompt (videoRecipeName src meal) (normalizeMealIngredients meal src)
          (normalizeMealSteps meal src)) true := by
  unfold videoRoute
  rw [hrid]
  simp only [Option.getD_some]
  rw [if_neg hnz, hdet]
  show (if normalizeMealIngredients meal src = [] ∨ normalizeMealSteps meal src = [] then
      VideoResp.err 400 "Recipe is missing ingredients or steps for video generation"
    else
      if body.preview = true ∨ env.openaiConfigured = false then
        VideoResp.preview
          (buildSoraPrompt (videoRecipeName src meal) (normalizeMealIngredients meal src)
            (normalizeMealSteps meal src)) (!env.openaiConfigured)
      else
        match env.soraCreate (buildSoraPrompt (videoRecipeName src meal)
            (normalizeMealIngredients meal src) (normalizeMealSteps meal src)) with
        | .error e =>
            VideoResp.errVideo "Failed to generate video" e
              (buildSoraPrompt (videoRecipeName src meal) (normalizeMealIngredients meal src)
                (normalizeMealSteps meal src))
        | .ok v =>
            VideoResp.created
              (buildSoraPrompt (videoRecipeName src meal) (normalizeMealIngredients meal src)
                (normalizeMealSteps meal src)) v) = _
  rw [if_neg (by exact fun hc => hc.elim hing hstep), if_pos (Or.inr hcred), hcred]
  rfl

theorem video_preview_without_credential_witness :
    videoRoute wVideoEnv { recipeId := some "7", source := none, preview := false } =
      VideoResp.preview
        (buildSoraPrompt "Toast" ["Bread"] ["Toast the bread."]) true := by
  rw [video_preview_without_credential wVideoEnv
    { recipeId := some "7", source := none, preview := false } "7" "mealdb"
    (ProviderMeal.mealdb wMeal) rfl (by decide) rfl (by decide) (by decide) rfl]
  rfl

theorem runMealDbTask_err_empty (f : Http (Option (List MdbItem))) (inc : Bool) :
    (runMealDbTask f inc).2.isSome → (runMealDbTask f inc).1 = [] := by
  unfold runMealDbTask
  split
  · split <;> simp
  · simp

theorem runSpoonTask_err_empty (key : Bool) (c f : Http (Option (List SpoonEntry)))
    (hd inc : Bool) :
    (runSpoonTask key c f hd inc).2.isSome → (runSpoonTask key c f hd inc).1 = [] := by
  unfold runSpoonTask
  split
  · split
    · split
      · split <;> simp
      · split <;> simp
    · simp
  · simp

theorem searchPayload_mealdb_eq (env : SearchEnv) (sanitized : String)
    (source : Option String) (diet intolerances : String) :
    (searchPayload env sanitized source diet intolerances).mealdb =
        (runMealDbTask (env.mealdbFilter sanitized)
          (decide (normalizeSource source = "mealdb") ||
            decide (normalizeSource source = "both"))).1 ∧
      (searchPayload env sanitized source diet intolerances).errMealdb =
        (runMealDbTask (env.mealdbFilter sanitized)
          (decide (normalizeSource source = "mealdb") ||
            decide (normalizeSource source = "both"))).2 :=
  ⟨rfl, rfl⟩

theorem searchPayload_spoon_eq (env : SearchEnv) (sanitized : String)
    (source : Option String) (diet intolerances : String) :
    (searchPayload env sanitized source diet intolerances).spoonacular =
        (runSpoonTask env.spoonacularKey (env.spoonComplex sanitized diet intolerances)
          (env.spoonFind sanitized) (decide (diet ≠ "") || decide (intolerances ≠ ""))
          (decide (normalizeSource source = "spoonacular") ||
            decide (normalizeSource source = "both"))).1 ∧
      (searchPayload env sanitized source diet intolerances).errSpoon =
        (runSpoonTask env.spoonacularKey (env.spoonComplex sanitized diet intolerances)
          (env.spoonFind sanitized) (decide (diet ≠ "") || decide (intolerances ≠ ""))
          (decide (normalizeSource source = "spoonacular") ||
            decide (normalizeSource source = "both"))).2 :=
  ⟨rfl, rfl⟩

/-- C4 counterexample: with TheMealDB succeeding on `meals: null` (no matches) and
Spoonacular returning one recipe, both providers queried (`source=both`), the
success response carries an empty `mealdb` array and no `errors.mealdb` entry —
the queried provider has neither a non-empty array nor an errors entry. -/
theorem search_empty_provider_cex :
    searchRoute cSearchEnv (some "chicken") (some "both") none none =
      SearchResp.ok
        { source := "both", mealdb := [], spoonacular := [SpoonVal.raw cSpoonEntry],
          errMealdb := none, errSpoon := none } := by
  decide

/-- C4 (amended): in a search response each queried provider contributes either its
own fetched (possibly empty) result array with no errors entry, or an empty array
together with an errors entry recording the failure; the slice of the payload
belonging to a provider depends only on the upstream behaviour of that provider,
so a failure of one provider never removes or fails the results of the other; and a success-status response
has at least one provider with a non-empty array. -/
theorem search_provider_isolation (env envS envM : SearchEnv)
    (hkey : envS.spoonacularKey = env.spoonacularKey)
    (hcomplex : envS.spoonComplex = env.spoonComplex)
    (hfind : envS.spoonFind = env.spoonFind)
    (hmfilter : envM.mealdbFilter = env.mealdbFilter) :
    (∀ (sanitized : String) (source : Option String) (diet intolerances : String),
        ((searchPayload env sanitized source diet intolerances).errMealdb.isSome →
          (searchPayload env sanitized source diet intolerances).mealdb = []) ∧
        ((searchPayload env sanitized source diet intolerances).errSpoon.isSome →
          (searchPayload env sanitized source diet intolerances).spoonacular = []) ∧
        ((searchPayload envS sanitized source diet intolerances).spoonacular =
            (searchPayload env sanitized source diet intolerances).spoonacular ∧
          (searchPayload envS sanitized source diet intolerances).errSpoon =
            (searchPayload env sanitized source diet intolerances).errSpoon) ∧
        ((searchPayload envM sanitized source diet intolerances).mealdb =
            (searchPayload env sanitized source diet intolerances).mealdb ∧
          (searchPayload envM sanitized source diet intolerances).errMealdb =
            (searchPayload env sanitized source diet intolerances).errMealdb)) ∧
      (∀ (ingredients source diet intolerances : Option String) (payload : SearchPayload),
        searchRoute env ingredients source diet intolerances = SearchResp.ok payload →
        payload.mealdb ≠ [] ∨ payload.spoonacular ≠ []) := by
  constructor
  · intro sanitized source diet intolerances
    refine ⟨?_, ?_, ?_, ?_⟩
    · rw [(searchPayload_mealdb_eq env sanitized source diet intolerances).1,
        (searchPayload_mealdb_eq env sanitized source diet intolerances).2]
      exact runMealDbTask_err_empty _ _
    · rw [(searchPayload_spoon_eq env sanitized source diet intolerances).1,
        (searchPayload_spoon_eq env sanitized source diet intolerances).2]
      exact runSpoonTask_err_empty _ _ _ _ _
    · rw [(searchPayload_spoon_eq env sanitized source diet intolerances).1,
        (searchPayload_spoon_eq env sanitized source diet intolerances).2,
        (searchPayload_spoon_eq envS sanitized source diet intolerances).1,
        (searchPayload_spoon_eq envS sanitized source diet intolerances).2,
        hkey, hcomplex, hfind]
      exact ⟨rfl, rfl⟩
    · rw [(searchPayload_mealdb_eq env sanitized source diet intolerances).1,
        (searchPayload_mealdb_eq env sanitized source diet intolerances).2,
        (searchPayload_mealdb_eq envM sanitized source diet intolerances).1,
        (searchPayload_mealdb_eq envM sanitized source diet intolerances).2,
        hmfilter]
      exact ⟨rfl, rfl⟩
  · intro ingredients source diet intolerances payload h
    simp only [searchRoute] at h
    by_cases hs : sanitizeCsv (ingredients.getD "") = ""
    · rw [if_pos hs] at h
      exact SearchResp.noConfusion h
    · rw [if_neg hs] at h
      by_cases hb :
          (searchPayload env (sanitizeCsv (ingredients.getD "")) source (diet.getD "")
              (intolerances.getD "")).mealdb = [] ∧
            (searchPayload env (sanitizeCsv (ingredients.getD "")) source (diet.getD "")
              (intolerances.getD "")).spoonacular = []
      · rw [if_pos hb] at h
        exact SearchResp.noConfusion h
      · rw [if_neg hb] at h
        cases h
        by_cases h1 :
            (searchPayload env (sanitizeCsv (ingredients.getD "")) source (diet.getD "")
              (intolerances.getD "")).mealdb = []
        · exact Or.inr (fun h2 => hb ⟨h1, h2⟩)
        · exact Or.inl h1

theorem search_provider_isolation_witness :
    (searchPayload wIso1 "chicken" (some "both") "" "").mealdb = [] ∧
      (searchPayload wIso2 "chicken" (some "both") "" "").spoonacular =
        (searchPayload wIso1 "chicken" (some "both") "" "").spoonacular := by
  have h := search_provider_isolation wIso1 wIso2 wIso1 rfl rfl rfl rfl
  exact ⟨(h.1 "chicken" (some "both") "" "").1 (by decide),
    ((h.1 "chicken" (some "both") "" "").2.2.1).1⟩

theorem toggleFavorite_eq (summary : RawItem) (f : Favorite) (prev : List Favorite)
    (hn : normalizeFavorite summary = some f) :
    toggleFavorite summary prev =
      if prev.any (fun favorite => buildFavoriteKey favorite == buildFavoriteKey f) then
        prev.filter (fun favorite => !(buildFavoriteKey favorite == buildFavoriteKey f))
      else prev ++ [f] := by
  unfold toggleFavorite
  rw [hn]

/-- C7 counterexample: toggling twice does not return the favorite set to its
original state when the stored entry under the toggled key differs from the
normalization of the summary — the stored title `B` entry is replaced by the title `A`
normalization, so the resulting set differs from the original. -/
theorem toggle_favorite_cex :
    toggleFavorite cexSummary (toggleFavorite cexSummary [cexStored]) = [cexNorm] ∧
      cexNorm ≠ cexStored := by
  decide

/-- C7 (amended): for a collection with at most one entry per composite key
`source-id`, any single toggle preserves per-key uniqueness, and toggling a
summary twice returns the same set of favorites provided every stored entry under
the key of the summary equals the normalization of the summary. -/
theorem toggle_favorite_roundtrip (summary : RawItem) (prev : List Favorite) (f : Favorite)
    (hn : normalizeFavorite summary = some f) (hu : keyUnique prev) :
    keyUnique (toggleFavorite summary prev) ∧
      ((∀ g ∈ prev, buildFavoriteKey g = buildFavoriteKey f → g = f) →
        ∀ x, x ∈ toggleFavorite summary (toggleFavorite summary prev) ↔ x ∈ prev) := by
  by_cases hmem : (prev.any fun fav => buildFavoriteKey fav == buildFavoriteKey f) = true
  · have h1 : toggleFavorite summary prev =
        prev.filter (fun fav => !(buildFavoriteKey fav == buildFavoriteKey f)) := by
      rw [toggleFavorite_eq summary f prev hn, if_pos hmem]
    have hany2 : ((prev.filter (fun fav => !(buildFavoriteKey fav == buildFavoriteKey f))).any
        (fun fav => buildFavoriteKey fav == buildFavoriteKey f)) = false := by
      rw [List.any_eq_false]
      intro x hx
      have hx2 := (List.mem_filter.mp hx).2
      simp only [Bool.not_eq_true'] at hx2
      simp [hx2]
    have h2 : toggleFavorite summary (toggleFavorite summary prev) =
        prev.filter (fun fav => !(buildFavoriteKey fav == buildFavoriteKey f)) ++ [f] := by
      rw [h1, toggleFavorite_eq summary f _ hn,
        if_neg (by rw [hany2]; exact Bool.false_ne_true)]
    constructor
    · rw [h1]
      exact List.Pairwise.sublist (List.filter_sublist prev) hu
    · intro hc x
      obtain ⟨g, hg, hgk⟩ := List.any_eq_true.mp hmem
      have hgf : g = f := hc g hg (by simpa using hgk)
      have hf_mem : f ∈ prev := hgf ▸ hg
      rw [h2]
      constructor
      · intro hx
        rcases List.mem_append.mp hx with hx | hx
        · exact (List.mem_filter.mp hx).1
        · have hxf : x = f := by simpa using hx
          exact hxf ▸ hf_mem
      · intro hx
        by_cases hk : buildFavoriteKey x = buildFavoriteKey f
        · have hxf : x = f := hc x hx hk
          exact List.mem_append.mpr (Or.inr (by simp [hxf]))
        · exact List.mem_append.mpr (Or.inl (List.mem_filter.mpr ⟨hx, by simp [hk]⟩))
  · have hma : (prev.any fun fav => buildFavoriteKey fav == buildFavoriteKey f) = false :=
      Bool.eq_false_iff.mpr hmem
    have hnone : ∀ g ∈ prev, buildFavoriteKey g ≠ buildFavoriteKey f := by
      intro g hg
      have := List.any_eq_false.mp hma g hg
      simpa using this
    have h1 : toggleFavorite summary prev = prev ++ [f] := by
      rw [toggleFavorite_eq summary f prev hn, if_neg hmem]
    have hu2 : keyUnique (prev ++ [f]) := by
      rw [keyUnique, List.pairwise_append]
      refine ⟨hu, List.pairwise_singleton _ _, ?_⟩
      intro a ha b hb
      have hbf : b = f := by simpa using hb
      exact hbf ▸ hnone a ha
    have hany3 : ((prev ++ [f]).any fun fav => buildFavoriteKey fav == buildFavoriteKey f)
        = true :=
      List.any_eq_true.mpr ⟨f, by simp, by simp⟩
    have h2 : toggleFavorite summary (toggleFavorite summary prev) = prev := by
      rw [h1, toggleFavorite_eq summary f _ hn, if_pos hany3, List.filter_append]
      have hsingle : (([f] : List Favorite).filter
          (fun fav => !(buildFavoriteKey fav == buildFavoriteKey f))) = [] := by
        simp
      have hprev : (prev.filter
          (fun fav => !(buildFavoriteKey fav == buildFavoriteKey f))) = prev :=
        List.filter_eq_self.mpr (fun a ha => by simp [hnone a ha])
      rw [hsingle, hprev, List.append_nil]
    constructor
    · rw [h1]
      exact hu2
    · intro _ x
      rw [h2]

theorem toggle_favorite_roundtrip_witness :
    keyUnique (toggleFavorite cexSummary []) ∧
      ∀ x, x ∈ toggleFavorite cexSummary (toggleFavorite cexSummary []) ↔
        x ∈ ([] : List Favorite) := by
  have h := toggle_favorite_roundtrip cexSummary [] cexNorm (by decide) List.Pairwise.nil
  exact ⟨h.1, h.2 (by simp)⟩

theorem setAdd_nodup (acc : List String) (x : String) (h : acc.Nodup) :
    (setAdd acc x).Nodup := by
  unfold setAdd
  split
  · exact h
  · next hx => exact List.Nodup.append h (List.nodup_singleton x) (by simpa using hx)

theorem mem_setAdd (acc : List String) (x y : String) :
    y ∈ setAdd acc x ↔ y ∈ acc ∨ y = x := by
  unfold setAdd
  split
  · next hx =>
      constructor
      · exact Or.inl
      · rintro (h | rfl)
        · exact h
        · exact hx
  · simp

theorem foldl_setAdd_nodup (step : List String → String → List String)
    (hstep : ∀ acc x, acc.Nodup → (step acc x).Nodup) :
    ∀ (l acc : List String), acc.Nodup → (l.foldl step acc).Nodup := by
  intro l
  induction l with
  | nil => intro acc h; exact h
  | cons a t ih => intro acc h; exact ih _ (hstep _ _ h)

theorem foldl_setAdd_mem (step : List String → String → List String)
    (hstep : ∀ acc x y, y ∈ step acc x → y ∈ acc ∨ y = x) :
    ∀ (l acc : List String) (y : String), y ∈ l.foldl step acc → y ∈ acc ∨ y ∈ l := by
  intro l
  induction l with
  | nil => intro acc y h; exact Or.inl h
  | cons a t ih =>
      intro acc y h
      rcases ih (step acc a) y h with h2 | h2
      · rcases hstep acc a y h2 with h3 | h3
        · exact Or.inl h3
        · exact Or.inr (by simp [h3])
      · exact Or.inr (by simp [h2])

theorem foldl_setAdd_superset (step : List String → String → List String)
    (hstep : ∀ acc x, acc ⊆ step acc x) :
    ∀ (l acc : List String), acc ⊆ l.foldl step acc := by
  intro l
  induction l with
  | nil => intro acc y h; exact h
  | cons a t ih => intro acc y h; exact ih (step acc a) (hstep acc a h)

theorem foldl_setAdd_of_nodup :
    ∀ (l acc : List String), acc.Nodup → l.Nodup → (∀ x ∈ l, x ∉ acc) →
      l.foldl setAdd acc = acc ++ l := by
  intro l
  induction l with
  | nil => intro acc _ _ _; simp
  | cons a t ih =>
      intro acc hacc hl hdisj
      have ha : a ∉ acc := hdisj a (by simp)
      have hset : setAdd acc a = acc ++ [a] := by
        unfold setAdd
        rw [if_neg ha]
      rw [List.foldl_cons, hset, ih (acc ++ [a])
        (List.Nodup.append hacc (List.nodup_singleton a) (by simpa using ha))
        (List.Nodup.of_cons hl)
        (by
          intro x hx
          simp only [List.mem_append, List.mem_singleton]
          rintro (hxa | rfl)
          · exact hdisj x (by simp [hx]) hxa
          · exact (List.nodup_cons.mp hl).1 hx)]
      simp

/-- C8: starting from a duplicate-free shopping list, `addShoppingItems` keeps it
duplicate-free (deduplicated by exact string match), adds only strings from the
requested items, keeps every existing entry, and `removeShoppingItem` and
`clearShoppingList` preserve the duplicate-free invariant. -/
theorem shopping_list_invariant (prev items : List String) (h : prev.Nodup) :
    (addShoppingItems items prev).Nodup ∧
      (∀ x ∈ addShoppingItems items prev, x ∈ prev ∨ x ∈ items) ∧
      (∀ x ∈ prev, x ∈ addShoppingItems items prev) ∧
      (∀ item, (removeShoppingItem item prev).Nodup) ∧
      clearShoppingList.Nodup := by
  have hstep_nodup : ∀ (acc : List String) (x : String), acc.Nodup →
      ((fun acc item => if item = "" then acc else setAdd acc item) acc x).Nodup := by
    intro acc x hacc
    by_cases hx : x = ""
    · simpa [hx] using hacc
    · simpa [hx] using setAdd_nodup acc x hacc
  have hstep_mem : ∀ (acc : List String) (x y : String),
      y ∈ (fun acc item => if item = "" then acc else setAdd acc item) acc x →
        y ∈ acc ∨ y = x := by
    intro acc x y hy
    by_cases hx : x = ""
    · simp only [hx, if_pos rfl] at hy
      exact Or.inl hy
    · simp only [if_neg hx] at hy
      exact (mem_setAdd acc x y).mp hy
  have hstep_sup : ∀ (acc : List String) (x : String),
      acc ⊆ (fun acc item => if item = "" then acc else setAdd acc item) acc x := by
    intro acc x y hy
    by_cases hx : x = ""
    · simpa [hx] using hy
    · simp only [if_neg hx]
      exact (mem_setAdd acc x y).mpr (Or.inl hy)
  have hbase : prev.foldl setAdd [] = prev := by
    simpa using foldl_setAdd_of_nodup prev [] List.nodup_nil h (by simp)
  refine ⟨?_, ?_, ?_, ?_, List.nodup_nil⟩
  · exact foldl_setAdd_nodup _ hstep_nodup items _
      (foldl_setAdd_nodup setAdd setAdd_nodup prev [] List.nodup_nil)
  · intro x hx
    rcases foldl_setAdd_mem _ hstep_mem items _ x hx with h2 | h2
    · rw [hbase] at h2
      exact Or.inl h2
    · exact Or.inr h2
  · intro x hx
    exact foldl_setAdd_superset _ hstep_sup items _ (by rw [hbase]; exact hx)
  · intro item
    exact List.Nodup.filter _ h

theorem shopping_list_invariant_witness :
    (addShoppingItems ["milk", "", "eggs"] ["milk"]).Nodup ∧
      (∀ x ∈ addShoppingItems ["milk", "", "eggs"] ["milk"],
        x ∈ (["milk"] : List String) ∨ x ∈ (["milk", "", "eggs"] : List String)) ∧
      (∀ x ∈ (["milk"] : List String), x ∈ addShoppingItems ["milk", "", "eggs"] ["milk"]) ∧
      (∀ item, (removeShoppingItem item ["milk"]).Nodup) ∧
      clearShoppingList.Nodup :=
  shopping_list_invariant ["milk"] ["milk", "", "eggs"] (by decide)
